import Mathlib

/-!
# Verification of the user-svc session/token lifecycle subsystem

A shallow embedding of the Go sources of `user-svc`:

* `internal/domain/refresh_token.go` — the `RefreshToken` domain model,
  its constructor `NewRefreshToken` and validity predicate `IsValid`;
* `internal/app/repository/refresh_token.go` — the session store
  (`Create`, `GetByTokenHash`, `RevokeByID`, `RevokeByUserID`,
  `DeleteExpired`, `CreateWithTx`) over a list-of-rows database model;
* the service layer (`UserService`: `Register`, `Login`, `RefreshToken`,
  `RevokeToken`, `RevokeAllUserTokens`, `CleanupExpiredTokens`);
* the JWT token maker (`token` package: `JWTTokenMaker.VerifyToken`).

Machine integers (`int64` epoch timestamps) are modelled as `Int`; the Go
`time.Now()` value is passed explicitly as a `Clock` carrying the epoch
second and the sub-second millisecond offset, so that `Unix()` and
`UnixMilli()` are distinguished exactly as in Go.  Collaborators whose
sources are not part of the repository snapshot (the bcrypt hashing
primitive, the token-hash digest, DTO validation, the identity-store row
operations, the transaction wrapper `utils/tx`) are modelled abstractly
or from the specification, as marked in the corresponding doc comments.
-/

namespace UserSvc

/-- Error kinds of `internal/domain/errs` plus the `token` package errors,
as used across the repository and mapped by `internal/app/grpc/errors.go`.
`internalErr` stands for any wrapped driver/storage error that is not one
of the named sentinel errors. -/
inductive Err where
  | invalidToken
  | tokenExpired
  | tokenRevoked
  | tokenNotFound
  | userNotFound
  | invalidCredentials
  | userAlreadyExists
  | emailRequired
  | invalidEmail
  | invalidUsername
  | invalidPassword
  | internalErr
  deriving DecidableEq, Repr

/-- A point in time: Go's `time.Now()`.  `sec` is `Unix()` (epoch seconds);
`subMs` the millisecond offset within that second, so `UnixMilli()` is
`1000 * sec + subMs`. -/
structure Clock where
  sec : Int
  subMs : Fin 1000
  deriving DecidableEq, Repr

/-- Go `time.Time.Unix()`. -/
def Clock.unix (c : Clock) : Int := c.sec

/-- Go `time.Time.UnixMilli()`. -/
def Clock.unixMilli (c : Clock) : Int := 1000 * c.sec + c.subMs

/-- The `RefreshToken` domain model (`internal/domain/refresh_token.go`,
also the repository row of `internal/app/repository/refresh_token.go`).
`uuid.UUID` values are modelled as `Nat` with `uuid.Nil = 0`. -/
structure RefreshTokenRec where
  id : String
  userId : Nat
  tokenHash : String
  expiresAt : Int
  isRevoked : Bool
  createdAt : Int
  updatedAt : Int
  deriving DecidableEq, Repr

/-- `models.NewRefreshToken` (`internal/domain/refresh_token.go:23-45`).
The generated `uuid.New()` is supplied as `genId`; `time.Now()` as `c`. -/
def NewRefreshToken (genId : String) (c : Clock) (userID : Nat)
    (tokenHash : String) (expiresAt : Int) : Except Err RefreshTokenRec :=
  if userID = 0 then .error .invalidToken
  else if tokenHash = "" then .error .invalidToken
  else if expiresAt ≤ c.unix then .error .tokenExpired
  else .ok { id := genId, userId := userID, tokenHash := tokenHash,
             expiresAt := expiresAt, isRevoked := false,
             createdAt := c.unix, updatedAt := c.unix }

/-- `RefreshToken.IsValid` (`internal/domain/refresh_token.go:48-70`). -/
def RefreshTokenRec.IsValid (rt : RefreshTokenRec) (c : Clock) : Except Err Unit :=
  if rt.id = "" then .error .invalidToken
  else if rt.userId = 0 then .error .invalidToken
  else if rt.tokenHash = "" then .error .invalidToken
  else if rt.isRevoked then .error .tokenRevoked
  else if rt.expiresAt ≤ c.unix then .error .tokenExpired
  else .ok ()

/-- The `refresh_tokens` table, as the list of its rows. -/
abbrev Db := List RefreshTokenRec

/-- `RefreshTokenRepository.Create` (`refresh_token.go:55-78`): a plain
`INSERT` through the pooled connection.  The insert fails (a wrapped
driver error) when the primary key is already taken. -/
def RTCreate (db : Db) (r : RefreshTokenRec) : Db × Except Err Unit :=
  if db.any (fun x => x.id = r.id) then (db, .error .internalErr)
  else (db ++ [r], .ok ())

/-- `RefreshTokenRepository.GetByTokenHash` (`refresh_token.go:100-118`):
`SELECT ... WHERE token_hash = $1`; `sql.ErrNoRows` becomes
`errs.ErrTokenNotFound`. -/
def GetByTokenHash (db : Db) (h : String) : Except Err RefreshTokenRec :=
  match db.find? (fun r => r.tokenHash = h) with
  | some r => .ok r
  | none => .error .tokenNotFound

/-- The per-row effect of `RevokeByID`'s `UPDATE`: rows whose `id` matches
get `is_revoked = true, updated_at = $2`; the `WHERE` clause of the source
matches on `id` alone (`refresh_token.go:171-175`). -/
def revokeRowIfId (id : String) (nowMs : Int) (r : RefreshTokenRec) : RefreshTokenRec :=
  if r.id = id then { r with isRevoked := true, updatedAt := nowMs } else r

/-- `RefreshTokenRepository.RevokeByID` (`refresh_token.go:169-192`):
`UPDATE refresh_tokens SET is_revoked = true, updated_at = $2 WHERE id = $1`;
returns `errs.ErrTokenNotFound` iff zero rows were affected.  `nowMs` is
the source's `time.Now().UnixMilli()`. -/
def RevokeByID (db : Db) (id : String) (nowMs : Int) : Db × Except Err Unit :=
  let affected := (db.filter (fun r => r.id = id)).length
  (db.map (revokeRowIfId id nowMs),
   if affected = 0 then .error .tokenNotFound else .ok ())

/-- The per-row effect of `RevokeByUserID`'s `UPDATE` (match on `user_id`
alone, `refresh_token.go:196-200`). -/
def revokeRowIfUser (uid : Nat) (nowMs : Int) (r : RefreshTokenRec) : RefreshTokenRec :=
  if r.userId = uid then { r with isRevoked := true, updatedAt := nowMs } else r

/-- `RefreshTokenRepository.RevokeByUserID` (`refresh_token.go:194-217`):
revokes every row of the owner; `errs.ErrTokenNotFound` iff zero rows
affected. -/
def RevokeByUserID (db : Db) (uid : Nat) (nowMs : Int) : Db × Except Err Unit :=
  let affected := (db.filter (fun r => r.userId = uid)).length
  (db.map (revokeRowIfUser uid nowMs),
   if affected = 0 then .error .tokenNotFound else .ok ())

/-- `RefreshTokenRepository.DeleteExpired` (`refresh_token.go:219-232`):
`DELETE FROM refresh_tokens WHERE expires_at < ?`, with the parameter
`time.Now().UnixMilli()` — note the source compares the stored
`expires_at` against *milliseconds*. -/
def DeleteExpired (db : Db) (nowMs : Int) : Db × Except Err Unit :=
  (db.filter (fun r => ¬ (r.expiresAt < nowMs)), .ok ())

/-! ## Identity store -/

/-- The `User` domain model (`internal/domain/user.go`).  The value-object
wrappers `Email`/`Username`/`PasswordHash` are carried as their underlying
strings; `uuid.UUID` as `Nat` with `uuid.Nil = 0`. -/
structure User where
  id : Nat
  email : String
  username : String
  passwordHash : String
  createdAt : Int
  updatedAt : Int
  deriving DecidableEq, Repr

/-- The `users` table, as the list of its rows. -/
abbrev UsersTable := List User

/-- Modelled from the spec: the Identity Store's lookup-by-email
(`UserRepository.GetByEmail`; the repository implementation file is not
part of the snapshot, only its interface and tests).  Per the spec, lookup
of a principal by email returns the row or a not-found failure. -/
def UGetByEmail (us : UsersTable) (email : String) : Except Err User :=
  match us.find? (fun u => u.email = email) with
  | some u => .ok u
  | none => .error .userNotFound

/-- Modelled from the spec: the Identity Store's lookup-by-id
(`UserRepository.GetByID`; implementation not part of the snapshot). -/
def UGetByID (us : UsersTable) (uid : Nat) : Except Err User :=
  match us.find? (fun u => u.id = uid) with
  | some u => .ok u
  | none => .error .userNotFound

/-- Modelled from the spec: the Identity Store's `create`
(`UserRepository.Create`; implementation not part of the snapshot).  Per
the spec (§7), a uniqueness violation on email/username is reclassified as
the conflict kind.  The interface takes no transaction handle, so the
write goes through the pooled connection. -/
def UCreate (us : UsersTable) (u : User) : UsersTable × Except Err Unit :=
  if us.any (fun x => x.id = u.id ∨ x.email = u.email ∨ x.username = u.username) then
    (us, .error .userAlreadyExists)
  else (us ++ [u], .ok ())

/-! ## Transaction coordinator

The service state visible through the pooled connection, plus a buffer of
writes made through an open transaction handle. -/

/-- Committed service state: both tables, as seen by auto-commit
statements on the pooled connection. -/
structure St where
  users : UsersTable
  sessions : Db
  deriving DecidableEq, Repr

/-- State during `WithTransaction`: `base` is what the pooled connection
reads and writes (auto-commit, effective immediately); `txSessions` holds
rows inserted through the transaction handle (`CreateWithTx`), visible to
others only on commit. -/
structure TxState where
  base : St
  txSessions : Db
  deriving DecidableEq, Repr

/-- `RefreshTokenRepository.CreateWithTx` (`refresh_token.go:255-278`):
the same `INSERT`, but executed on the transaction handle, so the row
lands in the transaction buffer. -/
def RTCreateWithTx (ts : TxState) (r : RefreshTokenRec) : TxState × Except Err Unit :=
  if (ts.base.sessions ++ ts.txSessions).any (fun x => x.id = r.id) then
    (ts, .error .internalErr)
  else ({ ts with txSessions := ts.txSessions ++ [r] }, .ok ())

/-- Modelled from the spec: `utils/tx` `TxManager.WithTransaction` (the
`utils/tx` package is not part of the snapshot) — the scoped unit of work
of §4: the closure runs against an open transaction; on a returned
failure the transaction's own writes are rolled back, on success they are
committed.  Statements the closure issues through the pooled connection
(`r.db`, auto-commit) are outside the transaction's scope and persist
either way. -/
def withTransaction (st : St) (fn : TxState → TxState × Except Err α) :
    St × Except Err α :=
  let (ts, r) := fn { base := st, txSessions := [] }
  match r with
  | .ok a => ({ ts.base with sessions := ts.base.sessions ++ ts.txSessions }, .ok a)
  | .error e => (ts.base, .error e)

/-! ## Service collaborators -/

/-- The value-object validators `Email.Validate` / `Username.Validate` /
`PasswordHash.Validate` used by `models.NewUser` and `User.IsValid`
(`internal/domain/user.go`).  Modelled from the spec: the value-object
source files are not part of the snapshot; the claims under verification
do not depend on the individual rules of §4.1, so the checks are carried
abstractly. -/
structure Validators where
  validEmail : String → Except Err Unit
  validUsername : String → Except Err Unit
  validPasswordHash : String → Except Err Unit

/-- `models.NewUser` (`internal/domain/user.go:22-53`): empty email is the
distinct "email required" failure, then each value object is validated;
`uuid.New()` is supplied as `genId` and `time.Now()` as `c` (the source
stamps `UnixMilli`). -/
def NewUser (v : Validators) (genId : Nat) (c : Clock)
    (email passwordHash username : String) : Except Err User :=
  if email = "" then .error .emailRequired
  else match v.validEmail email with
  | .error e => .error e
  | .ok _ =>
    match v.validUsername username with
    | .error e => .error e
    | .ok _ =>
      match v.validPasswordHash passwordHash with
      | .error e => .error e
      | .ok _ => .ok { id := genId, email := email, username := username,
                       passwordHash := passwordHash,
                       createdAt := c.unixMilli, updatedAt := c.unixMilli }

/-- `User.IsValid` (`internal/domain/user.go:92-107`). -/
def User.IsValid (v : Validators) (u : User) : Except Err Unit :=
  if u.email = "" then .error .emailRequired
  else match v.validEmail u.email with
  | .error e => .error e
  | .ok _ =>
    match v.validUsername u.username with
    | .error e => .error e
    | .ok _ => v.validPasswordHash u.passwordHash

/-- The collaborators of `UserService` (`internal/app/service/user.go`):
the configured token durations, the `TokenMaker`, the token digest
(`token.HashToken` / `token.GenerateTokenHash`, source not part of the
snapshot — modelled as an opaque function), the bcrypt primitive (external
collaborator: `bcryptHash` is `bcrypt.GenerateFromPassword`,
`bcryptCompare hash plain` is true iff `bcrypt.CompareHashAndPassword`
succeeds), the value-object validators, and the DTO validators
(`dto.RegisterReq.Validate` / `dto.LoginReq.Validate`, modelled from the
spec: the `dto` package is not part of the snapshot). -/
structure Env where
  tokenDuration : Int
  refreshTokenDuration : Int
  createToken : String → Int → Except Err String
  createRefreshToken : String → Int → Except Err String
  verifyRefreshToken : String → Except Err Unit
  hashToken : String → String
  bcryptHash : String → Except Err String
  bcryptCompare : String → String → Bool
  validators : Validators
  validateRegister : String → String → String → Except Err Unit
  validateLogin : String → String → Except Err Unit

structure RegisterResp where
  user : User
  accessToken : String
  refreshToken : String
  deriving DecidableEq, Repr

structure LoginResp where
  user : User
  accessToken : String
  refreshToken : String
  deriving DecidableEq, Repr

structure RefreshResp where
  accessToken : String
  deriving DecidableEq, Repr

/-! ## UserService operations (`internal/app/service/user.go`) -/

/-- The closure `Register` passes to `WithTransaction`
(`user.go:101-140`).  Every repository call inside it is the
pooled-connection variant — `userRepo.Create(ctx, user)` and
`refreshTokenRepo.Create(ctx, ...)` (not `CreateWithTx`) — so each write
lands in `ts.base` directly. -/
def registerTxBody (env : Env) (sessionId : String) (c : Clock) (user : User)
    (ts : TxState) : TxState × Except Err RegisterResp :=
  match UCreate ts.base.users user with
  | (_, .error e) => (ts, .error e)
  | (users', .ok _) =>
    let ts := { ts with base := { ts.base with users := users' } }
    match env.createToken user.username env.tokenDuration with
    | .error e => (ts, .error e)
    | .ok accessToken =>
      match env.createRefreshToken user.username env.refreshTokenDuration with
      | .error e => (ts, .error e)
      | .ok refreshToken =>
        let tokenHash := env.hashToken refreshToken
        match NewRefreshToken sessionId c user.id tokenHash
            (env.refreshTokenDuration + c.unix) with
        | .error e => (ts, .error e)
        | .ok rec =>
          match RTCreate ts.base.sessions rec with
          | (_, .error e) => (ts, .error e)
          | (sessions', .ok _) =>
            ({ ts with base := { ts.base with sessions := sessions' } },
             .ok { user := user, accessToken := accessToken,
                   refreshToken := refreshToken })

/-- `UserService.Register` (`user.go:76-147`).  `userId` and `sessionId`
supply the two `uuid.New()` draws. -/
def Register (env : Env) (userId : Nat) (sessionId : String) (c : Clock)
    (st : St) (email username password : String) : St × Except Err RegisterResp :=
  match env.validateRegister email username password with
  | .error e => (st, .error e)
  | .ok _ =>
    match env.bcryptHash password with
    | .error e => (st, .error e)
    | .ok hashedPassword =>
      match NewUser env.validators userId c email hashedPassword username with
      | .error e => (st, .error e)
      | .ok user =>
        match user.IsValid env.validators with
        | .error e => (st, .error e)
        | .ok _ => withTransaction st (registerTxBody env sessionId c user)

/-- `UserService.Login` (`user.go:149-198`): no transaction wraps this
path; every write is an immediate pooled-connection write. -/
def Login (env : Env) (sessionId : String) (c : Clock) (st : St)
    (email password : String) : St × Except Err LoginResp :=
  match env.validateLogin email password with
  | .error e => (st, .error e)
  | .ok _ =>
    match UGetByEmail st.users email with
    | .error _ => (st, .error .invalidCredentials)
    | .ok user =>
      if ¬ env.bcryptCompare user.passwordHash password then
        (st, .error .invalidCredentials)
      else
        match env.createToken user.username env.tokenDuration with
        | .error e => (st, .error e)
        | .ok accessToken =>
          match env.createRefreshToken user.username env.refreshTokenDuration with
          | .error e => (st, .error e)
          | .ok refreshToken =>
            let tokenHash := env.hashToken refreshToken
            match NewRefreshToken sessionId c user.id tokenHash
                (env.refreshTokenDuration + c.unix) with
            | .error e => (st, .error e)
            | .ok rec =>
              match RTCreate st.sessions rec with
              | (_, .error e) => (st, .error e)
              | (sessions', .ok _) =>
                ({ st with sessions := sessions' },
                 .ok { user := user, accessToken := accessToken,
                       refreshToken := refreshToken })

/-- The read/validate/mint prefix of `UserService.RefreshToken`
(`user.go:200-235`): everything before the write to the session store.
Returns the session row that was read together with the freshly minted
access token. -/
def RefreshPhase1 (env : Env) (c : Clock) (st : St) (bearer : String) :
    Except Err (RefreshTokenRec × String) :=
  if bearer = "" then .error .invalidToken
  else match env.verifyRefreshToken bearer with
  | .error _ => .error .invalidToken
  | .ok _ =>
    let tokenHash := env.hashToken bearer
    match GetByTokenHash st.sessions tokenHash with
    | .error _ => .error .invalidToken
    | .ok rec =>
      match rec.IsValid c with
      | .error e => .error e
      | .ok _ =>
        match UGetByID st.users rec.userId with
        | .error _ => .error .userNotFound
        | .ok user =>
          match env.createToken user.username env.tokenDuration with
          | .error e => .error e
          | .ok newAccessToken => .ok (rec, newAccessToken)

/-- `UserService.RefreshToken` (`user.go:200-245`): the prefix above,
then `RevokeByID` on the row that was read, propagating its error
unchanged; on success only the new access token is returned. -/
def RefreshTokenOp (env : Env) (c : Clock) (st : St) (bearer : String) :
    St × Except Err RefreshResp :=
  match RefreshPhase1 env c st bearer with
  | .error e => (st, .error e)
  | .ok (rec, newAccessToken) =>
    match RevokeByID st.sessions rec.id c.unixMilli with
    | (sessions', .error e) => ({ st with sessions := sessions' }, .error e)
    | (sessions', .ok _) =>
      ({ st with sessions := sessions' }, .ok { accessToken := newAccessToken })

/-- `UserService.RevokeToken` (`user.go:247-263`). -/
def RevokeTokenOp (env : Env) (c : Clock) (st : St) (bearer : String) :
    St × Except Err Unit :=
  if bearer = "" then (st, .error .invalidToken)
  else
    let tokenHash := env.hashToken bearer
    match GetByTokenHash st.sessions tokenHash with
    | .error _ => (st, .error .invalidToken)
    | .ok rec =>
      match RevokeByID st.sessions rec.id c.unixMilli with
      | (sessions', e) => ({ st with sessions := sessions' }, e)

/-- `UserService.RevokeAllUserTokens` (`user.go:266-268`): delegates to
`RevokeByUserID`, passing its result through unchanged. -/
def RevokeAllUserTokens (c : Clock) (st : St) (uid : Nat) : St × Except Err Unit :=
  match RevokeByUserID st.sessions uid c.unixMilli with
  | (sessions', e) => ({ st with sessions := sessions' }, e)

/-- `UserService.CleanupExpiredTokens` (`user.go:271-273`): delegates to
`DeleteExpired`. -/
def CleanupExpiredTokens (c : Clock) (st : St) : St × Except Err Unit :=
  match DeleteExpired st.sessions c.unixMilli with
  | (sessions', e) => ({ st with sessions := sessions' }, e)

/-! ## Interleaved execution of two refresh calls

`RefreshTokenOp` touches the shared store at exactly two points: the
`GetByTokenHash` read inside `RefreshPhase1`, and the `RevokeByID` write.
Two service instances handling the same bearer concurrently may therefore
interleave as: both run their full read/validate/mint prefix against the
same committed store, then the two `RevokeByID` writes execute one after
the other.  Each call individually performs exactly the steps of
`RefreshTokenOp`. -/

/-- The write suffix of `RefreshTokenOp`, applied to a prefix result. -/
def refreshFinish (c : Clock) (st : St) (r : Except Err (RefreshTokenRec × String)) :
    St × Except Err RefreshResp :=
  match r with
  | .error e => (st, .error e)
  | .ok (rec, newAccessToken) =>
    match RevokeByID st.sessions rec.id c.unixMilli with
    | (sessions', .error e) => ({ st with sessions := sessions' }, .error e)
    | (sessions', .ok _) =>
      ({ st with sessions := sessions' }, .ok { accessToken := newAccessToken })

/-- Two concurrent `RefreshToken` calls with the same bearer, interleaved
so that both read before either writes; returns the final store and the
two calls' outcomes. -/
def RefreshTokenOpInterleaved (env : Env) (c : Clock) (st : St) (bearer : String) :
    St × (Except Err RefreshResp × Except Err RefreshResp) :=
  let r1 := RefreshPhase1 env c st bearer
  let r2 := RefreshPhase1 env c st bearer
  let (st1, o1) := refreshFinish c st r1
  let (st2, o2) := refreshFinish c st1 r2
  (st2, (o1, o2))

/-! ## The signed-claims token maker (`token` package)

`JWTTokenMaker.VerifyToken` pins the HMAC family in its `keyFunc` and
classifies every parse failure other than expiry as `ErrInvalidToken`.
The `golang-jwt/jwt/v5` parser is the external collaborator; its contract,
as relied on by the source, is modelled on an abstract view of a bearer
string: either it is malformed, or it carries a declared header algorithm,
a claims payload, and a MAC that is or is not valid under the maker's
key. -/

/-- The algorithm a bearer's header declares.  `HS256/HS384/HS512` are the
`jwt.SigningMethodHMAC` family; `RS256` stands for the RSA family;
`none` is the explicit no-signature declaration
(`jwt.SigningMethodNone`). -/
inductive JwtAlg where
  | HS256
  | HS384
  | HS512
  | RS256
  | none
  deriving DecidableEq, Repr

/-- Whether the declared method is `*jwt.SigningMethodHMAC` — the type
assertion in the source's `keyFunc` (`token/jwt_maker.go:248-255`). -/
def JwtAlg.isHMAC : JwtAlg → Bool
  | .HS256 | .HS384 | .HS512 => true
  | _ => false

/-- The claims carried by a bearer (`token.Payload`: token id, username,
issued-at, expired-at; the payload source file is not part of the
snapshot, its fields are those the tests read). -/
structure TokenPayload where
  id : Nat
  username : String
  issuedAt : Int
  expiredAt : Int
  deriving DecidableEq, Repr

/-- A structurally well-formed bearer as the parser sees it: declared
algorithm, claims, and whether its MAC verifies under the maker's key. -/
structure JwtWire where
  alg : JwtAlg
  payload : TokenPayload
  macValidUnderKey : Bool
  deriving DecidableEq, Repr

/-- The distinct failures of `jwt.ParseWithClaims`; only `tokenExpired`
satisfies `errors.Is(err, jwt.ErrTokenExpired)`. -/
inductive JwtParseErr where
  | malformed
  | keyFuncFailed
  | macInvalid
  | tokenExpired
  deriving DecidableEq, Repr

/-- `jwt.ParseWithClaims` with the source's `keyFunc` (external
collaborator contract, as relied on by `token/jwt_maker.go:247-263`):
a malformed string fails; otherwise the `keyFunc` runs on the declared
method and its error aborts the parse; then the MAC is checked; then the
claims' expiry.  `none` (`Option.none`) encodes a malformed bearer. -/
def jwtParseWithClaims (w : Option JwtWire) (c : Clock) : Except JwtParseErr TokenPayload :=
  match w with
  | Option.none => .error .malformed
  | some t =>
    if ¬ t.alg.isHMAC then .error .keyFuncFailed
    else if ¬ t.macValidUnderKey then .error .macInvalid
    else if t.payload.expiredAt < c.unix then .error .tokenExpired
    else .ok t.payload

/-- `JWTTokenMaker.VerifyToken` (`token/jwt_maker.go:247-271`): parse
failures satisfying `errors.Is(err, jwt.ErrTokenExpired)` become
`ErrExpiredToken`, every other failure becomes `ErrInvalidToken`. -/
def JWTVerifyToken (w : Option JwtWire) (c : Clock) : Except Err TokenPayload :=
  match jwtParseWithClaims w c with
  | .error .tokenExpired => .error .tokenExpired
  | .error _ => .error .invalidToken
  | .ok p => .ok p

/-! ## External error taxonomy for RevokeAllUserTokens -/

/-- Modelled from the spec: the error kinds §6 lists for the external
`RevokeAllUserTokens` operation — `ack | InvalidInput | Internal`
(the `InvalidInput{field}` family and `Internal`). -/
def revokeAllListedKind : Err → Bool
  | .invalidEmail | .invalidUsername | .invalidPassword
  | .emailRequired | .internalErr => true
  | _ => false

/-! ## Concrete fixtures -/

/-- Validators that accept everything (the concrete inputs below satisfy
the §4.1 rules, so the accepting instantiation is consistent). -/
def vOk : Validators :=
  { validEmail := fun _ => .ok ()
    validUsername := fun _ => .ok ()
    validPasswordHash := fun _ => .ok () }

/-- A concrete collaborator instantiation: deterministic token maker,
injective digest, bcrypt that matches exactly its own hashes. -/
def env0 : Env :=
  { tokenDuration := 900
    refreshTokenDuration := 604800
    createToken := fun u _ => .ok ("access:" ++ u)
    createRefreshToken := fun u _ => .ok ("refresh:" ++ u)
    verifyRefreshToken := fun b => if b = "" then .error .invalidToken else .ok ()
    hashToken := fun b => "h:" ++ b
    bcryptHash := fun p => .ok ("bc:" ++ p)
    bcryptCompare := fun h p => h = "bc:" ++ p
    validators := vOk
    validateRegister := fun _ _ _ => .ok ()
    validateLogin := fun _ _ => .ok () }

/-- A whole-second instant: epoch second 1 760 000 000. -/
def c0 : Clock := { sec := 1760000000, subMs := 0 }

def user0 : User :=
  { id := 7, email := "a@example.com", username := "user123"
    passwordHash := "bc:Abcdef1!"
    createdAt := 1759000000000, updatedAt := 1759000000000 }

/-- The refresh bearer whose digest `sess0` stores. -/
def bearer0 : String := "refresh:user123"

/-- A live session of `user0`: not revoked, expires one week after `c0`. -/
def sess0 : RefreshTokenRec :=
  { id := "s1", userId := 7, tokenHash := "h:refresh:user123"
    expiresAt := 1760604800, isRevoked := false
    createdAt := 1760000000, updatedAt := 1760000000 }

def st0 : St := { users := [user0], sessions := [sess0] }

def stEmpty : St := { users := [], sessions := [] }

end UserSvc

namespace UserSvc

/-! ## Theorems -/

/-- C1: the claim says the revocation step used by Refresh marks a session
revoked only where its id matches *and* `revoked = false`, so that of two
concurrent Refresh calls presented with one still-valid token exactly one
succeeds.  The source's `RevokeByID` matches on id alone, so in the
interleaving where both calls read the still-valid session before either
writes, both `RevokeByID` writes affect one row and both calls return a
successful refresh response — two successes from a single token. -/
theorem C1_interleaved_refreshes_both_succeed :
    (RefreshTokenOpInterleaved env0 c0 st0 bearer0).2.1
        = .ok { accessToken := "access:user123" } ∧
    (RefreshTokenOpInterleaved env0 c0 st0 bearer0).2.2
        = .ok { accessToken := "access:user123" } :=
  ⟨rfl, rfl⟩

/-- C2: the claim says Register's identity and session writes are scoped
to one atomic transaction, so no identity-without-session state survives a
failed Register.  The source's closure performs both writes through the
pooled connection (`userRepo.Create`, `refreshTokenRepo.Create` — not
`CreateWithTx`), so when refresh-token minting fails after the identity
insert, the rollback undoes nothing: Register reports the failure yet the
new identity row persists with no session row. -/
theorem C2_failed_register_leaves_identity_without_session :
    (Register { env0 with createRefreshToken := fun _ _ => .error .internalErr }
        7 "s1" c0 stEmpty "a@example.com" "user123" "Abcdef1!").2
      = .error .internalErr ∧
    (Register { env0 with createRefreshToken := fun _ _ => .error .internalErr }
        7 "s1" c0 stEmpty "a@example.com" "user123" "Abcdef1!").1.users.length = 1 ∧
    (Register { env0 with createRefreshToken := fun _ _ => .error .internalErr }
        7 "s1" c0 stEmpty "a@example.com" "user123" "Abcdef1!").1.sessions = [] :=
  ⟨rfl, rfl, rfl⟩

/-- C3: the claim says a revoke attempt on an already-revoked session id
reports the not-found kind.  The source's `UPDATE ... WHERE id = $1`
matches the revoked row all the same, reports one affected row, and
`RevokeByID` returns success. -/
theorem C3_revoke_of_already_revoked_session_succeeds :
    ({ sess0 with isRevoked := true } : RefreshTokenRec).isRevoked = true ∧
    (RevokeByID [{ sess0 with isRevoked := true }] "s1" c0.unixMilli).2 = .ok () :=
  ⟨rfl, rfl⟩

/-- C4: the claim says CleanupExpiredTokens deletes exactly the sessions
whose expiry has passed and leaves every not-yet-expired session
untouched.  Session rows store `expires_at` in epoch seconds
(`NewRefreshToken` uses `time.Now().Unix()`), but `DeleteExpired`
compares against `time.Now().UnixMilli()`: at `c0`, `sess0` is still
valid (`IsValid` succeeds), yet `1760604800 < 1760000000000`, so the sweep
deletes it. -/
theorem C4_cleanup_deletes_an_unexpired_session :
    sess0.IsValid c0 = .ok () ∧
    (CleanupExpiredTokens c0 st0).1.sessions = [] :=
  ⟨rfl, rfl⟩

end UserSvc

namespace UserSvc

/-! ### Shared inversion lemmas -/

/-- Inversion of a successful `IsValid` check. -/
theorem IsValid_ok_inv {rt : RefreshTokenRec} {c : Clock}
    (h : rt.IsValid c = .ok ()) :
    rt.id ≠ "" ∧ rt.userId ≠ 0 ∧ rt.tokenHash ≠ "" ∧
    rt.isRevoked = false ∧ c.unix < rt.expiresAt := by
  unfold RefreshTokenRec.IsValid at h
  split_ifs at h with h1 h2 h3 h4 h5
  exact ⟨h1, h2, h3, by simpa using h4, by omega⟩

/-- Inversion of a successful `GetByTokenHash` lookup. -/
theorem GetByTokenHash_ok_inv {db : Db} {h : String} {rec : RefreshTokenRec}
    (hg : GetByTokenHash db h = .ok rec) :
    db.find? (fun r => r.tokenHash = h) = some rec := by
  unfold GetByTokenHash at hg
  split at hg
  case _ r heq =>
    cases hg
    exact heq
  case _ heq => cases hg

/-- `revokeRowIfId` preserves the token hash, so a hash lookup commutes
with the revocation update. -/
theorem find?_tokenHash_map_revokeRowIfId (l : Db) (id : String) (ms : Int)
    (h : String) :
    (l.map (revokeRowIfId id ms)).find? (fun r => r.tokenHash = h)
      = (l.find? (fun r => r.tokenHash = h)).map (revokeRowIfId id ms) := by
  induction l with
  | nil => rfl
  | cons a t ih =>
    have hth : (revokeRowIfId id ms a).tokenHash = a.tokenHash := by
      unfold revokeRowIfId; split <;> rfl
    by_cases hc : a.tokenHash = h
    · simp [List.find?_cons, hth, hc]
    · simp [List.find?_cons, hth, hc, ih]

end UserSvc

namespace UserSvc

/-- Inversion of a successful `RefreshPhase1` prefix. -/
theorem RefreshPhase1_ok_inv {env : Env} {c : Clock} {st : St} {bearer : String}
    {rec : RefreshTokenRec} {tok : String}
    (h : RefreshPhase1 env c st bearer = .ok (rec, tok)) :
    bearer ≠ "" ∧ env.verifyRefreshToken bearer = .ok () ∧
    GetByTokenHash st.sessions (env.hashToken bearer) = .ok rec ∧
    rec.IsValid c = .ok () := by
  by_cases hb : bearer = ""
  · rw [RefreshPhase1, if_pos hb] at h
    cases h
  · rw [RefreshPhase1, if_neg hb] at h
    cases hv : env.verifyRefreshToken bearer with
    | error e => simp only [hv] at h; cases h
    | ok u =>
      cases u
      simp only [hv] at h
      cases hg : GetByTokenHash st.sessions (env.hashToken bearer) with
      | error e => simp only [hg] at h; cases h
      | ok rec0 =>
        simp only [hg] at h
        cases hvld : rec0.IsValid c with
        | error e => simp only [hvld] at h; cases h
        | ok u2 =>
          cases u2
          simp only [hvld] at h
          cases hu : UGetByID st.users rec0.userId with
          | error e => simp only [hu] at h; cases h
          | ok user =>
            simp only [hu] at h
            cases hct : env.createToken user.username env.tokenDuration with
            | error e => simp only [hct] at h; cases h
            | ok t =>
              simp only [hct] at h
              cases h
              exact ⟨hb, rfl, rfl, hvld⟩

end UserSvc

namespace UserSvc

/-- Inversion of a successful `RefreshTokenOp` call: the prefix succeeded
on some session row, and the final state is the original state with that
row's id marked revoked in place. -/
theorem RefreshTokenOp_ok_inv {env : Env} {c : Clock} {st st1 : St}
    {bearer : String} {resp : RefreshResp}
    (h : RefreshTokenOp env c st bearer = (st1, .ok resp)) :
    ∃ rec, RefreshPhase1 env c st bearer = .ok (rec, resp.accessToken) ∧
      st1 = { st with
              sessions := st.sessions.map (revokeRowIfId rec.id c.unixMilli) } := by
  unfold RefreshTokenOp at h
  cases hp : RefreshPhase1 env c st bearer with
  | error e =>
    simp only [hp, Prod.mk.injEq] at h
    exact absurd h.2 (by simp)
  | ok pr =>
    obtain ⟨rec, tok⟩ := pr
    simp only [hp] at h
    split at h
    next sessions' e heq =>
      simp only [Prod.mk.injEq] at h
      exact absurd h.2 (by simp)
    next sessions' u heq =>
      simp only [Prod.mk.injEq] at h
      obtain ⟨h1, h2⟩ := h
      have hsess : sessions' = st.sessions.map (revokeRowIfId rec.id c.unixMilli) := by
        have := congrArg Prod.fst heq
        simpa [RevokeByID] using this.symm
      cases h2
      exact ⟨rec, rfl, by rw [← h1, hsess]⟩

end UserSvc

namespace UserSvc

/-- C5 (counterexample): the claim says the second sequential RefreshToken
call with the already-rotated bearer fails with the *invalid-token* kind.
On the code it fails, but with the *revoked-token* kind: the service
propagates the session-validity error of `IsValid` unchanged
(`user.go:221-223`), and `IsValid` reports `ErrTokenRevoked` for a
revoked row. -/
theorem C5_second_refresh_fails_revoked_not_invalid :
    (RefreshTokenOp env0 c0 st0 bearer0).2 = .ok { accessToken := "access:user123" } ∧
    (RefreshTokenOp env0 c0 (RefreshTokenOp env0 c0 st0 bearer0).1 bearer0).2
      = .error .tokenRevoked ∧
    (RefreshTokenOp env0 c0 (RefreshTokenOp env0 c0 st0 bearer0).1 bearer0).2
      ≠ .error .invalidToken :=
  ⟨rfl, rfl, fun hcontra => Err.noConfusion (Except.error.inj hcontra)⟩

/-- C5 (amended): when RefreshToken is called a second time in sequence
with the original refresh token that the first successful call already
rotated (revoked), the second call fails with the RevokedToken kind. -/
theorem C5_second_sequential_refresh_fails_with_tokenRevoked
    (env : Env) (c1 c2 : Clock) (st st1 : St) (bearer : String)
    (resp : RefreshResp)
    (h : RefreshTokenOp env c1 st bearer = (st1, .ok resp)) :
    (RefreshTokenOp env c2 st1 bearer).2 = .error .tokenRevoked := by
  obtain ⟨rec, hp, hst1⟩ := RefreshTokenOp_ok_inv h
  obtain ⟨hb, hv, hg, hvld⟩ := RefreshPhase1_ok_inv hp
  obtain ⟨hid, huid, hhash, hrev, hexp⟩ := IsValid_ok_inv hvld
  have hfind := GetByTokenHash_ok_inv hg
  have hget2 : GetByTokenHash st1.sessions (env.hashToken bearer)
      = .ok { rec with isRevoked := true, updatedAt := c1.unixMilli } := by
    rw [hst1]
    unfold GetByTokenHash
    rw [show ({ st with
          sessions := st.sessions.map (revokeRowIfId rec.id c1.unixMilli) } : St).sessions
        = st.sessions.map (revokeRowIfId rec.id c1.unixMilli) from rfl,
      find?_tokenHash_map_revokeRowIfId, hfind]
    simp [revokeRowIfId]
  have hvld2 :
      ({ rec with isRevoked := true, updatedAt := c1.unixMilli } : RefreshTokenRec).IsValid c2
      = .error .tokenRevoked := by
    simp [RefreshTokenRec.IsValid, hid, huid, hhash]
  have hp2 : RefreshPhase1 env c2 st1 bearer = .error .tokenRevoked := by
    rw [RefreshPhase1, if_neg hb]
    simp only [hv, hget2, hvld2]
  simp [RefreshTokenOp, hp2]

/-- C5 (witness for the amended theorem): the concrete two-call sequence. -/
theorem C5_amended_witness :
    (RefreshTokenOp env0 c0 (RefreshTokenOp env0 c0 st0 bearer0).1 bearer0).2
      = .error .tokenRevoked :=
  C5_second_sequential_refresh_fails_with_tokenRevoked env0 c0 c0 st0
    (RefreshTokenOp env0 c0 st0 bearer0).1 bearer0
    { accessToken := "access:user123" } rfl

end UserSvc

namespace UserSvc

/-- C6: for every RefreshToken call, an empty bearer is rejected
immediately with the invalid-token kind; cryptographic verification
failure yields the invalid-token kind; and absence of a session row
matching the bearer's hash (the store's not-found result) yields the
invalid-token kind, never the not-found kind. -/
theorem C6_refresh_error_uniformity (env : Env) (c : Clock) (st : St)
    (bearer : String) (e : Err) :
    (RefreshTokenOp env c st "").2 = .error .invalidToken ∧
    (bearer ≠ "" → env.verifyRefreshToken bearer = .error e →
      (RefreshTokenOp env c st bearer).2 = .error .invalidToken) ∧
    (bearer ≠ "" → env.verifyRefreshToken bearer = .ok () →
      GetByTokenHash st.sessions (env.hashToken bearer) = .error .tokenNotFound →
      (RefreshTokenOp env c st bearer).2 = .error .invalidToken) := by
  refine ⟨?_, ?_, ?_⟩
  · simp [RefreshTokenOp, RefreshPhase1]
  · intro hb hv
    have hp : RefreshPhase1 env c st bearer = .error .invalidToken := by
      rw [RefreshPhase1, if_neg hb]
      simp only [hv]
    simp [RefreshTokenOp, hp]
  · intro hb hv hg
    have hp : RefreshPhase1 env c st bearer = .error .invalidToken := by
      rw [RefreshPhase1, if_neg hb]
      simp only [hv, hg]
    simp [RefreshTokenOp, hp]

/-- C6 (witness): empty bearer; failing verifier; empty session store. -/
theorem C6_witness :
    (RefreshTokenOp env0 c0 st0 "").2 = .error .invalidToken ∧
    (RefreshTokenOp { env0 with verifyRefreshToken := fun _ => .error .tokenExpired }
        c0 st0 "x").2 = .error .invalidToken ∧
    (RefreshTokenOp env0 c0 stEmpty "zzz").2 = .error .invalidToken :=
  ⟨(C6_refresh_error_uniformity env0 c0 st0 "x" .tokenExpired).1,
   (C6_refresh_error_uniformity
       { env0 with verifyRefreshToken := fun _ => .error .tokenExpired }
       c0 st0 "x" .tokenExpired).2.1 (by decide) rfl,
   (C6_refresh_error_uniformity env0 c0 stEmpty "zzz" .tokenExpired).2.2
       (by decide) rfl rfl⟩

/-- C7: for every Login call past request validation, an identity-lookup
failure is reported as the invalid-credentials kind, and a password-hash
mismatch is reported as the same invalid-credentials kind. -/
theorem C7_login_error_uniformity (env : Env) (sid : String) (c : Clock)
    (st : St) (email password : String) (e : Err) (user : User) :
    (env.validateLogin email password = .ok () →
      UGetByEmail st.users email = .error e →
      (Login env sid c st email password).2 = .error .invalidCredentials) ∧
    (env.validateLogin email password = .ok () →
      UGetByEmail st.users email = .ok user →
      env.bcryptCompare user.passwordHash password = false →
      (Login env sid c st email password).2 = .error .invalidCredentials) := by
  constructor
  · intro hval hget
    unfold Login
    simp only [hval, hget]
  · intro hval hget hcmp
    unfold Login
    simp only [hval, hget, hcmp]
    simp

/-- C7 (witness): unknown email; known email with a wrong password. -/
theorem C7_witness :
    (Login env0 "s9" c0 stEmpty "a@example.com" "pw").2 = .error .invalidCredentials ∧
    (Login env0 "s9" c0 st0 "a@example.com" "wrong").2 = .error .invalidCredentials :=
  ⟨(C7_login_error_uniformity env0 "s9" c0 stEmpty "a@example.com" "pw"
      .userNotFound user0).1 rfl rfl,
   (C7_login_error_uniformity env0 "s9" c0 st0 "a@example.com" "wrong"
      .userNotFound user0).2 rfl rfl (by decide)⟩

/-- C8: the signed-claims token maker rejects every bearer whose header
declares an algorithm outside the HMAC family — including the explicit
"none" declaration — with the invalid-token kind, never returning a
payload. -/
theorem C8_verify_rejects_non_hmac_alg (t : JwtWire) (c : Clock)
    (h : t.alg.isHMAC = false) :
    JWTVerifyToken (some t) c = .error .invalidToken := by
  simp [JWTVerifyToken, jwtParseWithClaims, h]

/-- C8 (witness): a bearer declaring the "none" algorithm, even with a
MAC the verifier would accept, is rejected as invalid. -/
theorem C8_witness :
    JWTVerifyToken
      (some { alg := .none
              payload := { id := 1, username := "testuser"
                           issuedAt := 1760000000, expiredAt := 1760003600 }
              macValidUnderKey := true }) c0 = .error .invalidToken :=
  C8_verify_rejects_non_hmac_alg _ c0 rfl

/-- C10: for every owner id with zero matching session rows,
RevokeAllUserTokens returns the token-not-found error — a kind the
external interface for this operation (`ack | InvalidInput | Internal`)
does not list — instead of a success acknowledgement. -/
theorem C10_revokeAll_zero_rows_reports_tokenNotFound (c : Clock) (st : St)
    (uid : Nat)
    (h : (st.sessions.filter (fun r => r.userId = uid)).length = 0) :
    (RevokeAllUserTokens c st uid).2 = .error .tokenNotFound ∧
    revokeAllListedKind .tokenNotFound = false := by
  refine ⟨?_, rfl⟩
  simp [RevokeAllUserTokens, RevokeByUserID, h]

/-- C10 (witness): an owner with no sessions at all. -/
theorem C10_witness :
    (RevokeAllUserTokens c0 stEmpty 5).2 = .error .tokenNotFound ∧
    revokeAllListedKind .tokenNotFound = false :=
  C10_revokeAll_zero_rows_reports_tokenNotFound c0 stEmpty 5 rfl

end UserSvc

namespace UserSvc

/-- A successful transaction body of Register appends exactly one session
row through the pooled connection and leaves the transaction buffer
untouched. -/
theorem registerTxBody_ok_inv {env : Env} {sid : String} {c : Clock}
    {user : User} {ts0 ts : TxState} {resp : RegisterResp}
    (h : registerTxBody env sid c user ts0 = (ts, .ok resp)) :
    ∃ rec, ts.base.sessions = ts0.base.sessions ++ [rec] ∧
      ts.txSessions = ts0.txSessions := by
  unfold registerTxBody at h
  split at h
  · simp only [Prod.mk.injEq] at h
    exact absurd h.2 (by simp)
  next users' hUC =>
    cases hCT : env.createToken user.username env.tokenDuration with
    | error e =>
      simp only [hCT, Prod.mk.injEq] at h
      exact absurd h.2 (by simp)
    | ok accessToken =>
      simp only [hCT] at h
      cases hCRT : env.createRefreshToken user.username env.refreshTokenDuration with
      | error e =>
        simp only [hCRT, Prod.mk.injEq] at h
        exact absurd h.2 (by simp)
      | ok refreshToken =>
        simp only [hCRT] at h
        cases hNRT : NewRefreshToken sid c user.id (env.hashToken refreshToken)
            (env.refreshTokenDuration + c.unix) with
        | error e =>
          simp only [hNRT, Prod.mk.injEq] at h
          exact absurd h.2 (by simp)
        | ok rec =>
          simp only [hNRT] at h
          split at h
          next sessions' hRC =>
            simp only [Prod.mk.injEq] at h
            exact absurd h.2 (by simp)
          next sessions' u hRC =>
            simp only [Prod.mk.injEq] at h
            obtain ⟨h1, _⟩ := h
            refine ⟨rec, ?_, ?_⟩
            · rw [← h1]
              unfold RTCreate at hRC
              split at hRC
              · exact absurd (congrArg Prod.snd hRC) (by simp)
              · exact (congrArg Prod.fst hRC).symm
            · rw [← h1]

end UserSvc

namespace UserSvc

/-- A successful Register appends exactly one session row to the store. -/
theorem Register_sessions_append {env : Env} {uid : Nat} {sid : String}
    {c : Clock} {st st' : St} {email username password : String}
    {resp : RegisterResp}
    (h : Register env uid sid c st email username password = (st', .ok resp)) :
    ∃ rec, st'.sessions = st.sessions ++ [rec] := by
  unfold Register at h
  cases hval : env.validateRegister email username password with
  | error e =>
    simp only [hval, Prod.mk.injEq] at h
    exact absurd h.2 (by simp)
  | ok u0 =>
    cases u0
    simp only [hval] at h
    cases hbc : env.bcryptHash password with
    | error e =>
      simp only [hbc, Prod.mk.injEq] at h
      exact absurd h.2 (by simp)
    | ok hashedPassword =>
      simp only [hbc] at h
      cases hnu : NewUser env.validators uid c email hashedPassword username with
      | error e =>
        simp only [hnu, Prod.mk.injEq] at h
        exact absurd h.2 (by simp)
      | ok user =>
        simp only [hnu] at h
        cases hiv : user.IsValid env.validators with
        | error e =>
          simp only [hiv, Prod.mk.injEq] at h
          exact absurd h.2 (by simp)
        | ok u1 =>
          cases u1
          simp only [hiv] at h
          unfold withTransaction at h
          cases hfn : registerTxBody env sid c user { base := st, txSessions := [] } with
          | mk ts r =>
            simp only [hfn] at h
            cases r with
            | error e =>
              simp only [Prod.mk.injEq] at h
              exact absurd h.2 (by simp)
            | ok a =>
              obtain ⟨rec, hs, ht⟩ := registerTxBody_ok_inv hfn
              simp only [Prod.mk.injEq] at h
              obtain ⟨h1, _⟩ := h
              refine ⟨rec, ?_⟩
              rw [← h1]
              simp only []
              rw [hs, ht]
              simp

/-- A successful Login appends exactly one session row to the store. -/
theorem Login_sessions_append {env : Env} {sid : String} {c : Clock}
    {st st' : St} {email password : String} {resp : LoginResp}
    (h : Login env sid c st email password = (st', .ok resp)) :
    ∃ rec, st'.sessions = st.sessions ++ [rec] := by
  unfold Login at h
  cases hval : env.validateLogin email password with
  | error e =>
    simp only [hval, Prod.mk.injEq] at h
    exact absurd h.2 (by simp)
  | ok u0 =>
    cases u0
    simp only [hval] at h
    cases hget : UGetByEmail st.users email with
    | error e =>
      simp only [hget, Prod.mk.injEq] at h
      exact absurd h.2 (by simp)
    | ok user =>
      simp only [hget] at h
      by_cases hcmp : env.bcryptCompare user.passwordHash password
      · rw [if_neg (by simpa using hcmp)] at h
        cases hct : env.createToken user.username env.tokenDuration with
        | error e =>
          simp only [hct, Prod.mk.injEq] at h
          exact absurd h.2 (by simp)
        | ok accessToken =>
          simp only [hct] at h
          cases hcrt : env.createRefreshToken user.username env.refreshTokenDuration with
          | error e =>
            simp only [hcrt, Prod.mk.injEq] at h
            exact absurd h.2 (by simp)
          | ok refreshToken =>
            simp only [hcrt] at h
            cases hnrt : NewRefreshToken sid c user.id (env.hashToken refreshToken)
                (env.refreshTokenDuration + c.unix) with
            | error e =>
              simp only [hnrt, Prod.mk.injEq] at h
              exact absurd h.2 (by simp)
            | ok rec =>
              simp only [hnrt] at h
              split at h
              next sessions' hRC =>
                simp only [Prod.mk.injEq] at h
                exact absurd h.2 (by simp)
              next sessions' u hRC =>
                simp only [Prod.mk.injEq] at h
                obtain ⟨h1, _⟩ := h
                refine ⟨rec, ?_⟩
                rw [← h1]
                unfold RTCreate at hRC
                split at hRC
                · exact absurd (congrArg Prod.snd hRC) (by simp)
                · exact (congrArg Prod.fst hRC).symm
      · rw [if_pos (by simpa using hcmp)] at h
        simp only [Prod.mk.injEq] at h
        exact absurd h.2 (by simp)

end UserSvc

namespace UserSvc

/-- C9 (counterexample): the claim says a successful RefreshToken call
persists a new session row for a successor credential.  On the code a
successful refresh leaves the store holding exactly the old row, now
marked revoked — no new session row exists, and no successor refresh
credential is minted (the response carries only an access token). -/
theorem C9_refresh_persists_no_new_session :
    (RefreshTokenOp env0 c0 st0 bearer0).2 = .ok { accessToken := "access:user123" } ∧
    (RefreshTokenOp env0 c0 st0 bearer0).1.sessions
      = [{ sess0 with isRevoked := true, updatedAt := c0.unixMilli }] :=
  ⟨rfl, rfl⟩

/-- C9 (amended): a Session row is created whenever a token pair is
issued — on registration and on login; a successful RefreshToken call
creates no session row: the store afterwards is exactly the old store
with the consumed row's id marked revoked. -/
theorem C9_session_creation_per_operation (env : Env) (uid : Nat)
    (sid : String) (c : Clock) (st st' : St)
    (email username password b : String) (rresp : RegisterResp)
    (lresp : LoginResp) (fresp : RefreshResp) :
    (Register env uid sid c st email username password = (st', .ok rresp) →
      ∃ rec, st'.sessions = st.sessions ++ [rec]) ∧
    (Login env sid c st email password = (st', .ok lresp) →
      ∃ rec, st'.sessions = st.sessions ++ [rec]) ∧
    (RefreshTokenOp env c st b = (st', .ok fresp) →
      ∃ rec : RefreshTokenRec,
        st'.sessions = st.sessions.map (revokeRowIfId rec.id c.unixMilli)) := by
  refine ⟨fun h => Register_sessions_append h,
          fun h => Login_sessions_append h,
          fun h => ?_⟩
  obtain ⟨rec, _, hst⟩ := RefreshTokenOp_ok_inv h
  exact ⟨rec, by rw [hst]⟩

/-- C9 (witness): the three operations at concrete inputs. -/
theorem C9_witness :
    (∃ rec, (Register env0 7 "s1" c0 stEmpty
        "a@example.com" "user123" "Abcdef1!").1.sessions
        = stEmpty.sessions ++ [rec]) ∧
    (∃ rec, (Login env0 "s2" c0 st0 "a@example.com" "Abcdef1!").1.sessions
        = st0.sessions ++ [rec]) ∧
    (∃ rec : RefreshTokenRec, (RefreshTokenOp env0 c0 st0 bearer0).1.sessions
        = st0.sessions.map (revokeRowIfId rec.id c0.unixMilli)) :=
  ⟨(C9_session_creation_per_operation env0 7 "s1" c0 stEmpty
      (Register env0 7 "s1" c0 stEmpty "a@example.com" "user123" "Abcdef1!").1
      "a@example.com" "user123" "Abcdef1!" bearer0
      { user := { id := 7, email := "a@example.com", username := "user123"
                  passwordHash := "bc:Abcdef1!"
                  createdAt := 1760000000000, updatedAt := 1760000000000 }
        accessToken := "access:user123", refreshToken := "refresh:user123" }
      { user := user0, accessToken := "", refreshToken := "" }
      { accessToken := "" }).1 rfl,
   (C9_session_creation_per_operation env0 7 "s2" c0 st0
      (Login env0 "s2" c0 st0 "a@example.com" "Abcdef1!").1
      "a@example.com" "user123" "Abcdef1!" bearer0
      { user := user0, accessToken := "", refreshToken := "" }
      { user := user0, accessToken := "access:user123"
        refreshToken := "refresh:user123" }
      { accessToken := "" }).2.1 rfl,
   (C9_session_creation_per_operation env0 7 "s1" c0 st0
      (RefreshTokenOp env0 c0 st0 bearer0).1
      "a@example.com" "user123" "Abcdef1!" bearer0
      { user := user0, accessToken := "", refreshToken := "" }
      { user := user0, accessToken := "", refreshToken := "" }
      { accessToken := "access:user123" }).2.2 rfl⟩

end UserSvc
